import Mathlib

/-!
Verification of the voice-assistant outbound-confirmation core.

The development shallowly embeds the call lifecycle code of
`call_manager.py`, the content classifier of `twilio_client.py` /
`webhook_server.py`, and the retry scheduling of `call_manager.py`.
Times are absolute seconds (`Nat`); the Python `datetime` arithmetic
`now - last < timedelta(hours=H)` is modelled with truncated `Nat`
subtraction, which agrees with the Python comparison on every input
(a negative timedelta also compares below the positive delay).
Python dictionaries are modelled as association lists with unique-key
semantics (`dictGet`, `dictSet`, `dictErase`, `dictMapAt`).
-/

namespace VoiceAssistant

/-- `Config.MAX_RETRY_ATTEMPTS` (default 3), from `config.py`. -/
def MAX_RETRY_ATTEMPTS : Nat := 3

/-- `Config.RETRY_DELAY_HOURS` (default 1), from `config.py`. -/
def RETRY_DELAY_HOURS : Nat := 1

/-- The retry delay in seconds, `timedelta(hours=Config.RETRY_DELAY_HOURS)`. -/
def RETRY_DELAY_SECONDS : Nat := RETRY_DELAY_HOURS * 3600

/-- Seconds in one day, the period of `schedule.every().day`. -/
def SECONDS_PER_DAY : Nat := 86400

/-- `OperationMode` from `models.py`. -/
inductive OperationMode where
  | pickup
  | delivery
deriving DecidableEq

/-- `CallOutcome` from `models.py`. -/
inductive CallOutcome where
  | confirmed
  | declined
  | no_answer
  | busy
  | failed
deriving DecidableEq

/-- `CallOutcome.value`: the string payload of each enum member in `models.py`. -/
def CallOutcome.value : CallOutcome → String
  | .confirmed => "confirmed"
  | .declined => "declined"
  | .no_answer => "no_answer"
  | .busy => "busy"
  | .failed => "failed"

/-- `TaskData` from `models.py` (the fields the lifecycle reads;
`last_call_time` is an absolute timestamp in seconds). -/
structure TaskData where
  task_id : String
  customer_phone : String
  operation_mode : OperationMode
  retry_count : Nat
  last_call_time : Option Nat
  call_outcome : Option CallOutcome
deriving DecidableEq

/-- Python `dict` lookup `d.get(k)` over an association list. -/
def dictGet {α : Type} : List (String × α) → String → Option α
  | [], _ => none
  | (k', v) :: rest, k => if k' = k then some v else dictGet rest k

/-- Python `dict` assignment `d[k] = v`: replace the value when the key is
present, append otherwise. -/
def dictSet {α : Type} : List (String × α) → String → α → List (String × α)
  | [], k, v => [(k, v)]
  | (k', v') :: rest, k, v =>
      if k' = k then (k', v) :: rest else (k', v') :: dictSet rest k v

/-- Python `del d[k]`: remove every entry stored under the key. -/
def dictErase {α : Type} : List (String × α) → String → List (String × α)
  | [], _ => []
  | (k', v) :: rest, k =>
      if k' = k then dictErase rest k else (k', v) :: dictErase rest k

/-- Update the value stored under a key in place, leaving other keys alone
(used for the task-board writes, which address one task id). -/
def dictMapAt {α : Type} : List (String × α) → String → (α → α) → List (String × α)
  | [], _, _ => []
  | (k', v) :: rest, k, f =>
      if k' = k then (k', f v) :: dictMapAt rest k f
      else (k', v) :: dictMapAt rest k f

theorem dictGet_erase {α : Type} (l : List (String × α)) (k : String) :
    dictGet (dictErase l k) k = none := by
  induction l with
  | nil => rfl
  | cons p rest ih =>
      obtain ⟨k', v⟩ := p
      by_cases h : k' = k
      · simp [dictErase, h, ih]
      · simp [dictErase, dictGet, h, ih]

theorem dictGet_mapAt {α : Type} (l : List (String × α)) (k : String) (f : α → α) :
    dictGet (dictMapAt l k f) k = (dictGet l k).map f := by
  induction l with
  | nil => rfl
  | cons p rest ih =>
      obtain ⟨k', v⟩ := p
      by_cases h : k' = k
      · simp [dictMapAt, dictGet, h]
      · simp [dictMapAt, dictGet, h, ih]

theorem dictGet_set_self {α : Type} (l : List (String × α)) (k : String) (v : α) :
    dictGet (dictSet l k v) k = some v := by
  induction l with
  | nil => simp [dictSet, dictGet]
  | cons p rest ih =>
      obtain ⟨k', v'⟩ := p
      by_cases h : k' = k
      · simp [dictSet, dictGet, h]
      · simp [dictSet, dictGet, h, ih]

theorem dictGet_set_ne {α : Type} (l : List (String × α)) (k k' : String) (v : α)
    (h : k' ≠ k) : dictGet (dictSet l k v) k' = dictGet l k' := by
  induction l with
  | nil => simp [dictSet, dictGet, Ne.symm h]
  | cons p rest ih =>
      obtain ⟨k'', v''⟩ := p
      by_cases hk : k'' = k
      · subst hk
        simp [dictSet, dictGet, Ne.symm h]
      · simp [dictSet, dictGet, hk, ih]

/-! ## Status-based outcome classifier (`call_manager.py`, lines 150-161) -/

/-- Python truthiness-and-positivity test `duration and duration > 0`
(`None` and `0` are falsy). -/
def durationTruthyPos : Option Int → Bool
  | none => false
  | some d => decide (d ≠ 0) && decide (0 < d)

/-- `CallManager.get_call_outcome_from_status` from `call_manager.py`:
map a Twilio status string and optional duration to a `CallOutcome`. -/
def get_call_outcome_from_status (call_status : String) (duration : Option Int) :
    CallOutcome :=
  if call_status = "completed" ∧ durationTruthyPos duration then .confirmed
  else if call_status = "busy" then .busy
  else if call_status = "no-answer" then .no_answer
  else if call_status = "failed" then .failed
  else .no_answer

/-! ## Content classifier (`twilio_client.py` lines 94-115,
`webhook_server.py` lines 60-90) -/

/-- Character-list test: the second list is an initial segment of the first. -/
def charsStartWith : List Char → List Char → Bool
  | _, [] => true
  | [], _ :: _ => false
  | c :: cs, p :: ps => c == p && charsStartWith cs ps

/-- Character-list test: the pattern occurs contiguously somewhere. -/
def charsContain : List Char → List Char → Bool
  | [], pat => pat.isEmpty
  | c :: cs, pat => charsStartWith (c :: cs) pat || charsContain cs pat

/-- Python substring test `pat in s`. -/
def containsSubstring (s pat : String) : Bool := charsContain s.data pat.data

/-- Python `str.lower()` (ASCII case folding, as exercised here). -/
def strToLower (s : String) : String := String.mk (s.data.map Char.toLower)

/-- Python string truthiness of an `Optional[str]`: `None` and `""` are falsy. -/
def strTruthy : Option String → Bool
  | none => false
  | some s => !(s == "")

/-- The speech branch of `TwilioClient.generate_gather_response`: decide the
choice from the lowercased speech text (`twilio_client.py` lines 101-108). -/
def speechChoice (speech_lower : String) : Option String :=
  if containsSubstring speech_lower "yes" ∨ containsSubstring speech_lower "confirm" then
    some "confirmed"
  else if containsSubstring speech_lower "no" ∨ containsSubstring speech_lower "decline" then
    some "declined"
  else if containsSubstring speech_lower "reschedule" then some "reschedule"
  else none

/-- The keypad branch of `TwilioClient.generate_gather_response`
(`twilio_client.py` lines 109-115). -/
def digitsChoice (digits : String) : Option String :=
  if digits = "1" then some "confirmed"
  else if digits = "2" then some "declined"
  else if digits = "3" then some "reschedule"
  else none

/-- `user_choice` as computed by `TwilioClient.generate_gather_response`
(`twilio_client.py` lines 99-115): the speech branch runs whenever
`speech_result` is truthy; the digits branch only in the `elif`. -/
def user_choice (speech_result digits : Option String) : Option String :=
  if strTruthy speech_result then speechChoice (strToLower (speech_result.getD ""))
  else if strTruthy digits then digitsChoice (digits.getD "")
  else none

/-- The `outcome` query parameter embedded by `generate_gather_response`
into the `/complete` redirect (`twilio_client.py` line 149): a Python
f-string renders `None` as the literal text `"None"`. -/
def gather_outcome_param (uc : Option String) : String :=
  match uc with
  | some s => s
  | none => "None"

/-- The outcome mapping of the `/complete` endpoint
(`webhook_server.py` lines 72-80). -/
def complete_outcome (outcome : Option String) : CallOutcome :=
  if outcome = some "confirmed" then .confirmed
  else if outcome = some "declined" then .declined
  else if outcome = some "reschedule" then .declined
  else .no_answer

/-! ## System state: pending-call registry, task board, scheduled jobs -/

/-- The task-board record of one task, as written through `AsanaClient`
(`asana_client.py`): status, retry-count field, call-outcome field,
last-call-time field (stored serialized), call-sid field, and the
transcript comments attached to the task. -/
structure BoardRec where
  status : String
  retry_count : Nat
  call_outcome : Option String
  last_call_time : Option String
  call_sid : Option String
  notes : List String
deriving DecidableEq

/-- A retry job as created by `CallManager.schedule_retry`
(`call_manager.py` lines 117-130) with the semantics of
`schedule.every().day.at(retry_time.strftime("%H:%M")).do(...)`:
`retry_time` is the intended target `now + RETRY_DELAY`; `next_run` is the
first firing time, obtained by truncating `retry_time` to the minute of day
and placing it today when that minute of day is still ahead, otherwise
tomorrow; the job then repeats every `interval` seconds. -/
structure Job where
  task_id : String
  scheduled_at : Nat
  retry_time : Nat
  next_run : Nat
  interval : Nat
deriving DecidableEq

/-- Build the job `schedule_retry` creates when invoked at time `now`. -/
def mkRetryJob (tid : String) (now : Nat) : Job :=
  let retry_time := now + RETRY_DELAY_SECONDS
  let at_tod := retry_time % SECONDS_PER_DAY / 60 * 60
  let day_start := now - now % SECONDS_PER_DAY
  let next_run :=
    if now % SECONDS_PER_DAY < at_tod then day_start + at_tod
    else day_start + at_tod + SECONDS_PER_DAY
  { task_id := tid, scheduled_at := now, retry_time := retry_time,
    next_run := next_run, interval := SECONDS_PER_DAY }

/-- The n-th firing time of a job under `schedule.run_pending` driven by
`CallManager.run_scheduler` (`call_manager.py` lines 144-148): the job is
periodic, re-firing every `interval` after `next_run`. -/
def jobFireTime (j : Job) (n : Nat) : Nat := j.next_run + n * j.interval

/-- The mutable state shared by the driver, the webhook handlers and the
scheduler: `CallManager.pending_calls`, the external task board, and the
`schedule` module's job list. -/
structure SystemState where
  pending_calls : List (String × TaskData)
  board : List (String × BoardRec)
  jobs : List Job
deriving DecidableEq

/-- `AsanaClient.update_task_fields` routing of one field write
(`asana_client.py` lines 74-94): only configured custom fields are written. -/
def applyFieldWrite (field value : String) (r : BoardRec) : BoardRec :=
  if field = "call_outcome" then { r with call_outcome := some value }
  else if field = "last_call_time" then { r with last_call_time := some value }
  else if field = "call_sid" then { r with call_sid := some value }
  else r

/-! ## Task lifecycle evaluation (`call_manager.py` lines 29-70) -/

/-- The decision `CallManager.process_single_task` takes for a task. -/
inductive Action where
  | MarkUnavailable
  | Skip
  | PlaceCall
deriving DecidableEq

/-- The retry-delay guard of `process_single_task` (`call_manager.py`
lines 38-43): `last_call_time` set and `now - last_call_time <
timedelta(hours=RETRY_DELAY_HOURS)`. -/
def retryDelayGuard (task : TaskData) (now : Nat) : Bool :=
  match task.last_call_time with
  | some t => now - t < RETRY_DELAY_SECONDS
  | none => false

/-- `CallManager.process_single_task` (`call_manager.py` lines 29-70) as a
decision plus state transformer. `call_sid_result` is the value returned by
`TwilioClient.make_call` (`None` on provider failure). On `PlaceCall` with a
truthy sid the code writes `last_call_time` and `call_sid` to the board and
then stores the task in `pending_calls` under the sid. -/
def process_single_task (st : SystemState) (task : TaskData) (now : Nat)
    (call_sid_result : Option String) : Action × SystemState :=
  if MAX_RETRY_ATTEMPTS ≤ task.retry_count then
    let board1 := dictMapAt st.board task.task_id
      (fun r => { r with status := "customer_unavailable" })
    (.MarkUnavailable, { st with board := board1 })
  else if retryDelayGuard task now then (.Skip, st)
  else
    match call_sid_result with
    | some sid =>
        if sid = "" then (.PlaceCall, st)
        else
          let board1 := dictMapAt st.board task.task_id
            (applyFieldWrite "call_sid" sid ∘ applyFieldWrite "last_call_time" (toString now))
          (.PlaceCall,
            { st with board := board1,
                      pending_calls := dictSet st.pending_calls sid task })
    | none => (.PlaceCall, st)

/-! ## Completion handling (`call_manager.py` lines 72-115), as an ordered
trace of externally visible writes plus its induced state transformer -/

/-- One externally visible write performed by `handle_call_completion`,
in source order. -/
inductive WriteEvent where
  | registryRemove (call_sid : String)
  | fieldWrite (task_id field value : String)
  | transcriptNote (task_id text : String)
  | statusWrite (task_id status_name : String)
  | retryIncrement (task_id : String)
  | scheduleJob (task_id : String)
deriving DecidableEq

/-- The writes `handle_call_completion` performs after resolving the task,
in the order of `call_manager.py` lines 84-112: the call-outcome field
write, the optional transcript comment, then the per-outcome transition
(`confirmed` / `declined` set a terminal status; a retryable outcome
increments the retry count and then either sets `customer_unavailable`,
when `task.retry_count + 1 >= MAX_RETRY_ATTEMPTS`, or schedules a retry). -/
def completionWrites (task : TaskData) (outcome : CallOutcome)
    (transcript : Option String) : List WriteEvent :=
  [.fieldWrite task.task_id "call_outcome" outcome.value]
  ++ (match transcript with
      | some t => if t = "" then [] else [.transcriptNote task.task_id t]
      | none => [])
  ++ (match outcome with
      | .confirmed => [.statusWrite task.task_id "confirmed"]
      | .declined => [.statusWrite task.task_id "customer_unavailable"]
      | _ =>
          [.retryIncrement task.task_id]
          ++ (if MAX_RETRY_ATTEMPTS ≤ task.retry_count + 1 then
                [.statusWrite task.task_id "customer_unavailable"]
              else [.scheduleJob task.task_id]))

/-- The full event trace of one `handle_call_completion` invocation
(`call_manager.py` lines 72-115): an unknown `call_sid` produces no writes;
otherwise the registry entry is deleted (line 81) and then the task writes
of `completionWrites` run. -/
def handle_call_completion_trace (registry : List (String × TaskData))
    (call_sid : String) (outcome : CallOutcome) (transcript : Option String) :
    List WriteEvent :=
  match dictGet registry call_sid with
  | none => []
  | some task => .registryRemove call_sid :: completionWrites task outcome transcript

/-- Effect of one write event on the shared state; `now` is the wall-clock
time at which `schedule_retry` computes its target. -/
def applyEvent (now : Nat) (st : SystemState) : WriteEvent → SystemState
  | .registryRemove sid => { st with pending_calls := dictErase st.pending_calls sid }
  | .fieldWrite tid f v => { st with board := dictMapAt st.board tid (applyFieldWrite f v) }
  | .transcriptNote tid txt =>
      { st with board := dictMapAt st.board tid (fun r => { r with notes := r.notes ++ [txt] }) }
  | .statusWrite tid s =>
      { st with board := dictMapAt st.board tid (fun r => { r with status := s }) }
  | .retryIncrement tid =>
      { st with board := dictMapAt st.board tid (fun r => { r with retry_count := r.retry_count + 1 }) }
  | .scheduleJob tid => { st with jobs := st.jobs ++ [mkRetryJob tid now] }

/-- `CallManager.handle_call_completion` as a state transformer: the fold of
its own write trace. -/
def handle_call_completion (now : Nat) (st : SystemState) (call_sid : String)
    (outcome : CallOutcome) (transcript : Option String) : SystemState :=
  (handle_call_completion_trace st.pending_calls call_sid outcome transcript).foldl
    (applyEvent now) st

/-! ## Helper lemmas about the completion fold -/

theorem applyEvent_pending_of_not_remove (now : Nat) (st : SystemState) (e : WriteEvent)
    (h : ∀ sid, e ≠ .registryRemove sid) :
    (applyEvent now st e).pending_calls = st.pending_calls := by
  cases e with
  | registryRemove sid => exact absurd rfl (h sid)
  | fieldWrite tid f v => rfl
  | transcriptNote tid txt => rfl
  | statusWrite tid s => rfl
  | retryIncrement tid => rfl
  | scheduleJob tid => rfl

theorem foldl_pending_of_no_remove (now : Nat) (evs : List WriteEvent)
    (h : ∀ sid, WriteEvent.registryRemove sid ∉ evs) (st : SystemState) :
    (evs.foldl (applyEvent now) st).pending_calls = st.pending_calls := by
  induction evs generalizing st with
  | nil => rfl
  | cons e rest ih =>
      have he : ∀ sid, e ≠ .registryRemove sid := by
        intro sid hc
        exact h sid (hc ▸ List.mem_cons_self e rest)
      have hr : ∀ sid, WriteEvent.registryRemove sid ∉ rest := by
        intro sid hc
        exact h sid (List.mem_cons_of_mem e hc)
      rw [List.foldl_cons, ih hr, applyEvent_pending_of_not_remove now st e he]

theorem completionWrites_no_remove (task : TaskData) (o : CallOutcome)
    (tr : Option String) (sid : String) :
    WriteEvent.registryRemove sid ∉ completionWrites task o tr := by
  unfold completionWrites
  cases o <;> cases tr <;> simp <;> split <;> simp

theorem handle_of_trace_nil (now : Nat) (st : SystemState) (sid : String)
    (o : CallOutcome) (tr : Option String)
    (h : handle_call_completion_trace st.pending_calls sid o tr = []) :
    handle_call_completion now st sid o tr = st := by
  unfold handle_call_completion
  rw [h]
  rfl

theorem handle_pending (now : Nat) (st : SystemState) (sid : String)
    (o : CallOutcome) (tr : Option String) :
    (handle_call_completion now st sid o tr).pending_calls =
      match dictGet st.pending_calls sid with
      | none => st.pending_calls
      | some _ => dictErase st.pending_calls sid := by
  unfold handle_call_completion handle_call_completion_trace
  cases h : dictGet st.pending_calls sid with
  | none => simp
  | some task =>
      simp only [List.foldl_cons]
      rw [foldl_pending_of_no_remove now _ (fun s => completionWrites_no_remove task o tr s)]
      rfl

/-! ## C1 and C2: lifecycle evaluation of a single task -/

/-- C1: a task whose `retry_count` has reached `MAX_RETRY_ATTEMPTS` is
evaluated to `MarkUnavailable` (its board status is set to
`customer_unavailable`), never to `PlaceCall`, for every `last_call_time`,
every other task field, every state and every provider response. -/
theorem exhausted_task_marked_unavailable (st : SystemState) (task : TaskData)
    (now : Nat) (sid_res : Option String)
    (h : MAX_RETRY_ATTEMPTS ≤ task.retry_count) :
    (process_single_task st task now sid_res).1 = Action.MarkUnavailable ∧
    (process_single_task st task now sid_res).1 ≠ Action.PlaceCall ∧
    (dictGet (process_single_task st task now sid_res).2.board task.task_id).map
        BoardRec.status
      = (dictGet st.board task.task_id).map (fun _ => "customer_unavailable") ∧
    (process_single_task st task now sid_res).2.pending_calls = st.pending_calls ∧
    (process_single_task st task now sid_res).2.jobs = st.jobs := by
  refine ⟨?_, ?_, ?_, ?_, ?_⟩
  any_goals simp [process_single_task, h]
  simp [process_single_task, h, dictGet_mapAt, Option.map_map, Function.comp]
  cases dictGet st.board task.task_id <;> simp

/-- Closed witness for `exhausted_task_marked_unavailable`. -/
theorem exhausted_task_marked_unavailable_witness :
    MAX_RETRY_ATTEMPTS ≤ (3 : Nat) ∧
    (process_single_task ⟨[], [], []⟩
        ⟨"T1", "+15550001111", .pickup, 3, some 10, none⟩ 4000 none).1
      = Action.MarkUnavailable := by
  refine ⟨by decide, ?_⟩
  exact (exhausted_task_marked_unavailable ⟨[], [], []⟩
    ⟨"T1", "+15550001111", .pickup, 3, some 10, none⟩ 4000 none (by decide)).1

/-- C2: a task below the retry ceiling whose last call was less than
`RETRY_DELAY` ago is evaluated to `Skip`, and the whole state — board,
pending-call registry and jobs — is returned unchanged. -/
theorem recent_call_skipped (st : SystemState) (task : TaskData) (now t : Nat)
    (sid_res : Option String)
    (h1 : task.retry_count < MAX_RETRY_ATTEMPTS)
    (h2 : task.last_call_time = some t)
    (h3 : now - t < RETRY_DELAY_SECONDS) :
    process_single_task st task now sid_res = (Action.Skip, st) := by
  simp [process_single_task, Nat.not_le.mpr h1, retryDelayGuard, h2, h3]

/-- Closed witness for `recent_call_skipped`. -/
theorem recent_call_skipped_witness :
    process_single_task ⟨[], [], []⟩
        ⟨"T1", "+15550001111", .pickup, 1, some 1000, none⟩ 2000 (some "CA9")
      = (Action.Skip, ⟨[], [], []⟩) :=
  recent_call_skipped ⟨[], [], []⟩ ⟨"T1", "+15550001111", .pickup, 1, some 1000, none⟩
    2000 1000 (some "CA9") (by decide) rfl (by decide)

/-! ## C3: status-based classifier -/

/-- C3: `get_call_outcome_from_status` is total into the five outcomes;
`completed` with a truthy positive duration gives `confirmed`; `busy`,
`no-answer` and `failed` give their outcomes; every other status, and
`completed` without a positive duration, gives `no_answer`; the result is
never `declined`, and it is `confirmed` only for `completed` with a
positive duration. -/
theorem status_classifier_total_and_conservative (s : String) (d : Option Int) :
    (get_call_outcome_from_status s d = .confirmed ∨
     get_call_outcome_from_status s d = .declined ∨
     get_call_outcome_from_status s d = .no_answer ∨
     get_call_outcome_from_status s d = .busy ∨
     get_call_outcome_from_status s d = .failed) ∧
    (s = "completed" → durationTruthyPos d = true →
      get_call_outcome_from_status s d = .confirmed) ∧
    (s = "busy" → get_call_outcome_from_status s d = .busy) ∧
    (s = "no-answer" → get_call_outcome_from_status s d = .no_answer) ∧
    (s = "failed" → get_call_outcome_from_status s d = .failed) ∧
    (s ≠ "completed" → s ≠ "busy" → s ≠ "no-answer" → s ≠ "failed" →
      get_call_outcome_from_status s d = .no_answer) ∧
    (s = "completed" → durationTruthyPos d = false →
      get_call_outcome_from_status s d = .no_answer) ∧
    get_call_outcome_from_status s d ≠ .declined ∧
    (get_call_outcome_from_status s d = .confirmed →
      s = "completed" ∧ durationTruthyPos d = true) := by
  refine ⟨?_, ?_, ?_, ?_, ?_, ?_, ?_, ?_, ?_⟩
  · unfold get_call_outcome_from_status
    split_ifs <;> simp
  · intro hs hd
    subst hs
    unfold get_call_outcome_from_status
    rw [if_pos ⟨rfl, hd⟩]
  · intro hs
    subst hs
    unfold get_call_outcome_from_status
    rw [if_neg (fun hc => absurd hc.1 (by decide)), if_pos rfl]
  · intro hs
    subst hs
    unfold get_call_outcome_from_status
    rw [if_neg (fun hc => absurd hc.1 (by decide)), if_neg (by decide), if_pos rfl]
  · intro hs
    subst hs
    unfold get_call_outcome_from_status
    rw [if_neg (fun hc => absurd hc.1 (by decide)), if_neg (by decide),
      if_neg (by decide), if_pos rfl]
  · intro h1 h2 h3 h4
    unfold get_call_outcome_from_status
    rw [if_neg (fun hc => h1 hc.1), if_neg h2, if_neg h3, if_neg h4]
  · intro hs hd
    subst hs
    unfold get_call_outcome_from_status
    rw [if_neg (fun hc => by rw [hd] at hc; exact Bool.false_ne_true hc.2),
      if_neg (by decide), if_neg (by decide), if_neg (by decide)]
  · unfold get_call_outcome_from_status
    split_ifs <;> simp
  · unfold get_call_outcome_from_status
    split_ifs with h1 h2 h3 h4
    · exact fun _ => ⟨h1.1, h1.2⟩
    all_goals exact fun hc => absurd hc (by decide)

/-- Closed witness for `status_classifier_total_and_conservative`:
`CallStatus=completed`, `CallDuration=45` classifies as `confirmed`, and an
unrecognized status classifies as `no_answer`. -/
theorem status_classifier_witness :
    get_call_outcome_from_status "completed" (some 45) = CallOutcome.confirmed ∧
    get_call_outcome_from_status "ringing" none = CallOutcome.no_answer :=
  ⟨(status_classifier_total_and_conservative "completed" (some 45)).2.1 rfl (by decide),
   (status_classifier_total_and_conservative "ringing" none).2.2.2.2.2.1
     (by decide) (by decide) (by decide) (by decide)⟩

/-! ## C4 and C10: content-based classification -/

/-- C4: the gather classification, read as the source's ordered decision
list, maps speech containing "yes"/"confirm" (or, with no speech, digit 1)
to `confirmed`; speech containing "no"/"decline" (or digit 2) to
`declined`; a "reschedule" token (or digit 3) to the `reschedule` choice,
which the `/complete` endpoint maps to `declined` downstream; and any
input with no recognizable token or digit to no choice, which `/complete`
maps to `no_answer`. -/
theorem content_classification_spec (s dg : String) (d : Option String) :
    (s ≠ "" →
      (containsSubstring (strToLower s) "yes" ∨ containsSubstring (strToLower s) "confirm") →
      user_choice (some s) d = some "confirmed") ∧
    (s ≠ "" →
      ¬(containsSubstring (strToLower s) "yes" ∨ containsSubstring (strToLower s) "confirm") →
      (containsSubstring (strToLower s) "no" ∨ containsSubstring (strToLower s) "decline") →
      user_choice (some s) d = some "declined") ∧
    (s ≠ "" →
      ¬(containsSubstring (strToLower s) "yes" ∨ containsSubstring (strToLower s) "confirm") →
      ¬(containsSubstring (strToLower s) "no" ∨ containsSubstring (strToLower s) "decline") →
      containsSubstring (strToLower s) "reschedule" →
      user_choice (some s) d = some "reschedule") ∧
    (s ≠ "" →
      ¬(containsSubstring (strToLower s) "yes" ∨ containsSubstring (strToLower s) "confirm") →
      ¬(containsSubstring (strToLower s) "no" ∨ containsSubstring (strToLower s) "decline") →
      ¬containsSubstring (strToLower s) "reschedule" →
      user_choice (some s) d = none) ∧
    (user_choice none (some "1") = some "confirmed" ∧
     user_choice none (some "2") = some "declined" ∧
     user_choice none (some "3") = some "reschedule") ∧
    (dg ≠ "" → dg ≠ "1" → dg ≠ "2" → dg ≠ "3" →
      user_choice none (some dg) = none) ∧
    (complete_outcome (some "confirmed") = .confirmed ∧
     complete_outcome (some "declined") = .declined ∧
     complete_outcome (some "reschedule") = .declined ∧
     complete_outcome (some (gather_outcome_param none)) = .no_answer) := by
  refine ⟨?_, ?_, ?_, ?_, by decide, ?_, by decide⟩
  · intro hs htok
    simp only [user_choice, strTruthy, hs, bne_iff_ne, ne_eq, not_false_iff,
      if_true, Option.getD_some, speechChoice]
    rw [if_pos htok]
    simp [hs]
  · intro hs h1 h2
    simp only [user_choice, strTruthy, hs, bne_iff_ne, ne_eq, not_false_iff,
      if_true, Option.getD_some, speechChoice]
    rw [if_neg h1, if_pos h2]
    simp [hs]
  · intro hs h1 h2 h3
    simp only [user_choice, strTruthy, hs, bne_iff_ne, ne_eq, not_false_iff,
      if_true, Option.getD_some, speechChoice]
    rw [if_neg h1, if_neg h2, if_pos h3]
    simp [hs]
  · intro hs h1 h2 h3
    simp only [user_choice, strTruthy, hs, bne_iff_ne, ne_eq, not_false_iff,
      if_true, Option.getD_some, speechChoice]
    rw [if_neg h1, if_neg h2, if_neg h3]
    simp [hs]
  · intro h0 h1 h2 h3
    simp [user_choice, strTruthy, digitsChoice, h0, h1, h2, h3]

/-- Closed witness for `content_classification_spec`: a declining speech
answer classifies as `declined`, and a digit-free unintelligible answer
maps downstream to `no_answer`. -/
theorem content_classification_witness :
    user_choice (some "No thanks") none = some "declined" ∧
    user_choice (some "potato") none = none :=
  ⟨(content_classification_spec "No thanks" "" none).2.1 (by decide)
      (by decide) (by decide),
   (content_classification_spec "potato" "" none).2.2.2.1 (by decide)
      (by decide) (by decide) (by decide)⟩

/-- C10: when the gather callback carries a non-empty speech result, the
classification is computed from the speech alone — the digits argument is
ignored — and when the speech yields no recognized choice, the downstream
`/complete` outcome is `no_answer`. -/
theorem speech_overrides_digits (s d : String) (h : s ≠ "") :
    user_choice (some s) (some d) = user_choice (some s) none ∧
    (user_choice (some s) (some d) = none →
      complete_outcome (some (gather_outcome_param (user_choice (some s) (some d))))
        = .no_answer) := by
  constructor
  · simp [user_choice, strTruthy, h]
  · intro h0
    rw [h0]
    decide

/-- Closed witness for `speech_overrides_digits`: unrecognizable speech
together with digits "1" yields no recognized choice (so not `confirmed`),
exactly as with no digits at all. -/
theorem speech_overrides_digits_witness :
    user_choice (some "banana") (some "1") = user_choice (some "banana") none ∧
    user_choice (some "banana") (some "1") = none ∧
    user_choice (none : Option String) (some "1") = some "confirmed" :=
  ⟨(speech_overrides_digits "banana" "1" (by decide)).1, by decide, by decide⟩

/-! ## Concrete fixtures for closed counterexamples and witnesses -/

/-- A pending-confirmation board record with no calls yet. -/
def boardRec0 : BoardRec :=
  { status := "pending_confirmation", retry_count := 0, call_outcome := none,
    last_call_time := none, call_sid := none, notes := [] }

/-- A fresh pickup task `T1`. -/
def taskT1 : TaskData :=
  { task_id := "T1", customer_phone := "+15550001111", operation_mode := .pickup,
    retry_count := 0, last_call_time := none, call_outcome := none }

/-- A fresh delivery task `T2`. -/
def taskT2 : TaskData :=
  { task_id := "T2", customer_phone := "+15550002222", operation_mode := .delivery,
    retry_count := 0, last_call_time := none, call_outcome := none }

/-- A state with one in-flight call `CA1` placed for `taskT1`. -/
def stOneCall : SystemState :=
  { pending_calls := [("CA1", taskT1)],
    board := [("T1", boardRec0), ("T2", boardRec0)], jobs := [] }

/-! ## C6: duplicate registration -/

/-- C6 counterexample: registering under a call sid that is already present
in the pending-call registry does not fail — `process_single_task` still
reports `PlaceCall` and the prior association `CA1 → taskT1` is silently
overwritten with `CA1 → taskT2`. -/
theorem register_duplicate_overwrites_cex :
    dictGet stOneCall.pending_calls "CA1" = some taskT1 ∧
    (process_single_task stOneCall taskT2 5000 (some "CA1")).1 = Action.PlaceCall ∧
    dictGet (process_single_task stOneCall taskT2 5000 (some "CA1")).2.pending_calls "CA1"
      = some taskT2 := by
  refine ⟨rfl, ?_, ?_⟩ <;> decide

/-- C6 amended: registration always succeeds — when the lifecycle places a
call, the registry afterwards maps the sid to the newly registered task
(any existing association under that sid is overwritten), other sids are
untouched, and no error value exists in this path. -/
theorem register_overwrites (st : SystemState) (task : TaskData) (now : Nat)
    (sid sid' : String)
    (h1 : task.retry_count < MAX_RETRY_ATTEMPTS)
    (h2 : retryDelayGuard task now = false)
    (h3 : sid ≠ "") :
    (process_single_task st task now (some sid)).1 = Action.PlaceCall ∧
    (process_single_task st task now (some sid)).2.pending_calls
      = dictSet st.pending_calls sid task ∧
    dictGet (process_single_task st task now (some sid)).2.pending_calls sid
      = some task ∧
    (sid' ≠ sid →
      dictGet (process_single_task st task now (some sid)).2.pending_calls sid'
        = dictGet st.pending_calls sid') := by
  refine ⟨?_, ?_, ?_, ?_⟩ <;>
    simp [process_single_task, Nat.not_le.mpr h1, h2, h3, dictGet_set_self]
  intro h4
  exact dictGet_set_ne st.pending_calls sid sid' task h4

/-- Closed witness for `register_overwrites`. -/
theorem register_overwrites_witness :
    (process_single_task stOneCall taskT2 5000 (some "CA2")).1 = Action.PlaceCall ∧
    dictGet (process_single_task stOneCall taskT2 5000 (some "CA2")).2.pending_calls "CA2"
      = some taskT2 :=
  ⟨(register_overwrites stOneCall taskT2 5000 "CA2" "CA1" (by decide) (by decide)
      (by decide)).1,
   (register_overwrites stOneCall taskT2 5000 "CA2" "CA1" (by decide) (by decide)
      (by decide)).2.2.1⟩

/-! ## C7: idempotent completion -/

/-- C7: once `handle_call_completion` has processed a registered call sid,
the registry no longer holds that sid, so a second invocation for the same
sid produces an empty write trace and leaves the state exactly as it was —
no status write, no field write, no second retry-count increment. -/
theorem completion_idempotent (now now2 : Nat) (st : SystemState) (sid : String)
    (task : TaskData) (o1 o2 : CallOutcome) (tr1 tr2 : Option String)
    (h : dictGet st.pending_calls sid = some task) :
    dictGet (handle_call_completion now st sid o1 tr1).pending_calls sid = none ∧
    handle_call_completion_trace (handle_call_completion now st sid o1 tr1).pending_calls
      sid o2 tr2 = [] ∧
    handle_call_completion now2 (handle_call_completion now st sid o1 tr1) sid o2 tr2
      = handle_call_completion now st sid o1 tr1 := by
  have hp : (handle_call_completion now st sid o1 tr1).pending_calls
      = dictErase st.pending_calls sid := by
    rw [handle_pending, h]
  have hget : dictGet (handle_call_completion now st sid o1 tr1).pending_calls sid
      = none := by
    rw [hp]
    exact dictGet_erase st.pending_calls sid
  have htrace : handle_call_completion_trace
      (handle_call_completion now st sid o1 tr1).pending_calls sid o2 tr2 = [] := by
    unfold handle_call_completion_trace
    rw [hget]
  exact ⟨hget, htrace, handle_of_trace_nil now2 _ sid o2 tr2 htrace⟩

/-- Closed witness for `completion_idempotent`: a second `busy` callback for
`CA1` is a no-op after the first one was applied. -/
theorem completion_idempotent_witness :
    dictGet (handle_call_completion 5000 stOneCall "CA1" .busy none).pending_calls "CA1"
      = none ∧
    handle_call_completion 6000
        (handle_call_completion 5000 stOneCall "CA1" .busy none) "CA1" .busy none
      = handle_call_completion 5000 stOneCall "CA1" .busy none :=
  ⟨(completion_idempotent 5000 6000 stOneCall "CA1" taskT1 .busy .busy none none rfl).1,
   (completion_idempotent 5000 6000 stOneCall "CA1" taskT1 .busy .busy none none rfl).2.2⟩

/-! ## C5: retryable-outcome transition -/

/-- C5: completing a registered call with a retryable outcome (`no_answer`,
`busy` or `failed`) increments the task's board retry count by exactly one;
when the new count reaches `MAX_RETRY_ATTEMPTS` the status becomes
`customer_unavailable` and no retry job is created, otherwise the status is
left unchanged and exactly one retry job targeting `now + RETRY_DELAY` is
appended. `hsync` states the normal-operation invariant that the registry
snapshot's retry count agrees with the board. -/
theorem retryable_completion_transition (st : SystemState) (now : Nat)
    (sid : String) (task : TaskData) (r : BoardRec) (o : CallOutcome)
    (tr : Option String)
    (hreg : dictGet st.pending_calls sid = some task)
    (hb : dictGet st.board task.task_id = some r)
    (hsync : r.retry_count = task.retry_count)
    (hret : o = .no_answer ∨ o = .busy ∨ o = .failed) :
    (dictGet (handle_call_completion now st sid o tr).board task.task_id).map
        BoardRec.retry_count
      = some (r.retry_count + 1) ∧
    (MAX_RETRY_ATTEMPTS ≤ r.retry_count + 1 →
      (dictGet (handle_call_completion now st sid o tr).board task.task_id).map
          BoardRec.status
        = some "customer_unavailable" ∧
      (handle_call_completion now st sid o tr).jobs = st.jobs) ∧
    (¬ MAX_RETRY_ATTEMPTS ≤ r.retry_count + 1 →
      (dictGet (handle_call_completion now st sid o tr).board task.task_id).map
          BoardRec.status
        = some r.status ∧
      (handle_call_completion now st sid o tr).jobs
        = st.jobs ++ [mkRetryJob task.task_id now] ∧
      (mkRetryJob task.task_id now).retry_time = now + RETRY_DELAY_SECONDS) := by
  rcases hret with h | h | h <;>
    subst h <;>
    · unfold handle_call_completion handle_call_completion_trace
      rw [hreg]
      cases tr with
      | none =>
          by_cases hmax : MAX_RETRY_ATTEMPTS ≤ task.retry_count + 1 <;>
            simp [completionWrites, hmax, applyEvent, applyFieldWrite,
              dictGet_mapAt, hb, hsync, CallOutcome.value, mkRetryJob,
              RETRY_DELAY_SECONDS, RETRY_DELAY_HOURS]
      | some t =>
          by_cases ht : t = "" <;>
            by_cases hmax : MAX_RETRY_ATTEMPTS ≤ task.retry_count + 1 <;>
              simp [completionWrites, ht, hmax, applyEvent, applyFieldWrite,
                dictGet_mapAt, hb, hsync, CallOutcome.value, mkRetryJob,
                RETRY_DELAY_SECONDS, RETRY_DELAY_HOURS]

/-- Closed witness for `retryable_completion_transition`: a `busy` completion
for `CA1` takes `taskT1` from retry count 0 to 1, keeps its status and
schedules one retry. -/
theorem retryable_completion_transition_witness :
    (dictGet (handle_call_completion 5000 stOneCall "CA1" .busy none).board "T1").map
        BoardRec.retry_count
      = some 1 ∧
    (dictGet (handle_call_completion 5000 stOneCall "CA1" .busy none).board "T1").map
        BoardRec.status
      = some "pending_confirmation" ∧
    (handle_call_completion 5000 stOneCall "CA1" .busy none).jobs
      = [mkRetryJob "T1" 5000] :=
  ⟨(retryable_completion_transition stOneCall 5000 "CA1" taskT1 boardRec0 .busy none
      rfl rfl rfl (Or.inr (Or.inl rfl))).1,
   ((retryable_completion_transition stOneCall 5000 "CA1" taskT1 boardRec0 .busy none
      rfl rfl rfl (Or.inr (Or.inl rfl))).2.2 (by decide)).1,
   ((retryable_completion_transition stOneCall 5000 "CA1" taskT1 boardRec0 .busy none
      rfl rfl rfl (Or.inr (Or.inl rfl))).2.2 (by decide)).2.1⟩

/-! ## C8: write ordering during completion -/

/-- C8: the registry entry is removed first. In the concrete execution of
`handle_call_completion` for registered call `CA1` with outcome `confirmed`
and no transcript, the write trace begins with the registry removal and the
task writes (`call_outcome` field, status) happen strictly after it —
the opposite of the claimed writes-before-removal ordering. -/
theorem completion_removes_registry_before_writes_cex :
    handle_call_completion_trace stOneCall.pending_calls "CA1" .confirmed none
      = [.registryRemove "CA1",
         .fieldWrite "T1" "call_outcome" "confirmed",
         .statusWrite "T1" "confirmed"] := by
  decide

/-! ## C9: retry scheduling -/

/-- C9: `schedule_retry` invoked at 10:30:45 (37845 s into the day) with the
default one-hour delay builds a `schedule.every().day.at("11:30")` job: its
first firing is at 11:30:00 — 3555 s after scheduling, earlier than
`RETRY_DELAY_SECONDS` because `strftime("%H:%M")` drops the seconds — and
the job fires again one day later, so the re-invocation recurs instead of
being a single one. -/
theorem schedule_retry_recurring_and_early_cex :
    (mkRetryJob "T1" 37845).retry_time = 37845 + RETRY_DELAY_SECONDS ∧
    jobFireTime (mkRetryJob "T1" 37845) 0 = 41400 ∧
    jobFireTime (mkRetryJob "T1" 37845) 0 <
      (mkRetryJob "T1" 37845).scheduled_at + RETRY_DELAY_SECONDS ∧
    jobFireTime (mkRetryJob "T1" 37845) 1 = 41400 + SECONDS_PER_DAY := by
  decide

end VoiceAssistant
